import Mathlib

/-!
Verification of the BERT encoder implementation in `src/modeling.py`.

The Python source builds TensorFlow computation graphs.  We embed the
tensors shallowly: a tensor is a shape (list of axis extents) together
with a flat, row-major data function `Nat → α`.  Floating point numbers
are modelled by an arbitrary linearly ordered field (instantiated at `ℚ`
for executable witnesses and at `ℝ` when a claim mentions real square
roots or `tanh`); the transcendental primitives `sqrt`, `exp` and `tanh`
used by the graph are passed as explicit function parameters so that all
definitions stay computable.  Randomness (dropout) is modelled by an
explicit element-wise keep mask.  Fallible graph construction returns
`Except Err`, where `Err` distinguishes the configuration errors from
the shape errors raised as `ValueError` in the source.
-/

/-- Error kinds raised during graph construction (`ValueError` in the
source, split into the two documented categories). -/
inductive Err where
  | configError (msg : String)
  | shapeError (msg : String)
  deriving DecidableEq

/-- A tensor: list of axis extents plus flat row-major data. -/
structure Tensor (β : Type) where
  shape : List Nat
  data : Nat → β

/-- `assert_rank(tensor, expected_rank)`: fails when the tensor rank is
not one of the allowed values. -/
def assert_rank {β : Type} (t : Tensor β) (expected_rank : List Nat) : Except Err Unit :=
  if t.shape.length ∈ expected_rank then .ok ()
  else .error (.shapeError "the actual rank is not equal to the expected rank")

/-- `get_shape_list(tensor)` with `expected_rank` omitted: returns the
per-axis extents (all extents are static in this embedding). -/
def get_shape_list {β : Type} (t : Tensor β) : List Nat :=
  t.shape

/-- `get_shape_list(tensor, expected_rank)`: rank-checked variant. -/
def get_shape_list_checked {β : Type} (t : Tensor β) (expected_rank : List Nat) :
    Except Err (List Nat) := do
  let _ ← assert_rank t expected_rank
  pure t.shape

/-- `tf.reshape`: reinterprets the same row-major data under a new shape. -/
def tf_reshape {β : Type} (t : Tensor β) (new_shape : List Nat) : Tensor β :=
  ⟨new_shape, t.data⟩

/-- `reshape_to_matrix`: collapse all axes but the last into one
(`tf.reshape(t, [-1, width])`); identity on rank-2 input; fails below
rank 2. -/
def reshape_to_matrix {β : Type} (input_tensor : Tensor β) : Except Err (Tensor β) :=
  let ndims := input_tensor.shape.length
  if ndims < 2 then
    .error (.shapeError "Input tensor must have at least rank 2.")
  else if ndims = 2 then
    .ok input_tensor
  else
    let width := input_tensor.shape.getLastD 0
    .ok (tf_reshape input_tensor [input_tensor.shape.prod / width, width])

/-- `reshape_from_matrix`: restore all but the last axis from the
original shape; identity when the original shape has rank 2. -/
def reshape_from_matrix {β : Type} (output_tensor : Tensor β) (orig_shape_list : List Nat) :
    Tensor β :=
  if orig_shape_list.length = 2 then output_tensor
  else
    let output_shape := get_shape_list output_tensor
    let width := output_shape.getLastD 0
    tf_reshape output_tensor (orig_shape_list.dropLast ++ [width])

/-- C2: for every tensor of rank 2 or 3, flattening to a matrix and
unflattening with the recorded shape reproduces the tensor exactly
(same shape, same row-major data); for rank 2 both transforms are
no-ops. -/
theorem reshape_round_trip {β : Type} (t : Tensor β)
    (h : t.shape.length = 2 ∨ t.shape.length = 3) :
    ∃ m, reshape_to_matrix t = .ok m
      ∧ reshape_from_matrix m (get_shape_list t) = t
      ∧ (t.shape.length = 2 → m = t ∧ reshape_from_matrix t (get_shape_list t) = t) := by
  rcases h with h2 | h3
  · refine ⟨t, ?_, ?_, ?_⟩
    · simp [reshape_to_matrix, h2]
    · simp [reshape_from_matrix, get_shape_list, h2]
    · intro _
      constructor
      · rfl
      · simp [reshape_from_matrix, get_shape_list, h2]
  · obtain ⟨a, b, c, habc⟩ := List.length_eq_three.mp h3
    refine ⟨tf_reshape t [t.shape.prod / c, c], ?_, ?_, ?_⟩
    · simp [reshape_to_matrix, habc, tf_reshape]
    · cases t with
      | mk s d =>
        simp only [tf_reshape, reshape_from_matrix, get_shape_list] at *
        simp [habc]
    · intro h2
      rw [h3] at h2
      exact absurd h2 (by decide)

/-- Decoding a row-major flat index: quotient part. -/
theorem flat_div (x r d : Nat) (h : r < d) : (x * d + r) / d = x := by
  rw [Nat.mul_comm, Nat.mul_add_div (Nat.zero_lt_of_lt h), Nat.div_eq_of_lt h, Nat.add_zero]

/-- Decoding a row-major flat index: remainder part. -/
theorem flat_mod (x r d : Nat) (h : r < d) : (x * d + r) % d = r := by
  rw [Nat.mul_comm, Nat.mul_add_mod, Nat.mod_eq_of_lt h]

/-- Witness for C2 at a concrete rank-3 rational tensor. -/
theorem reshape_round_trip_witness :
    ∃ m, reshape_to_matrix (⟨[2, 3, 4], fun _ => (0 : ℚ)⟩ : Tensor ℚ) = .ok m
      ∧ reshape_from_matrix m (get_shape_list ⟨[2, 3, 4], fun _ => (0 : ℚ)⟩)
          = (⟨[2, 3, 4], fun _ => (0 : ℚ)⟩ : Tensor ℚ)
      ∧ ((⟨[2, 3, 4], fun _ => (0 : ℚ)⟩ : Tensor ℚ).shape.length = 2 →
          m = ⟨[2, 3, 4], fun _ => (0 : ℚ)⟩
            ∧ reshape_from_matrix (⟨[2, 3, 4], fun _ => (0 : ℚ)⟩ : Tensor ℚ)
                (get_shape_list ⟨[2, 3, 4], fun _ => (0 : ℚ)⟩)
              = ⟨[2, 3, 4], fun _ => (0 : ℚ)⟩) :=
  reshape_round_trip ⟨[2, 3, 4], fun _ => (0 : ℚ)⟩ (Or.inr (by decide))

/-- Modelled from the spec: `tf.nn.dropout(x, keep_prob)` (external
TensorFlow primitive): each element is independently dropped, survivors
are rescaled by `1 / keep_prob`.  The random draw is the explicit
element-wise `keep` mask. -/
def tf_nn_dropout {α : Type} [LinearOrderedField α] (keep : Nat → Bool) (t : Tensor α)
    (keep_prob : α) : Tensor α :=
  ⟨t.shape, fun i => if keep i then t.data i / keep_prob else 0⟩

/-- `dropout(input_tensor, dropout_prob)`: no-op when the probability is
`None` or `0.0`, otherwise `tf.nn.dropout` with keep probability
`1 - dropout_prob`. -/
def dropout {α : Type} [LinearOrderedField α] (keep : Nat → Bool) (input_tensor : Tensor α)
    (dropout_prob : Option α) : Tensor α :=
  match dropout_prob with
  | none => input_tensor
  | some p => if p = 0 then input_tensor else tf_nn_dropout keep input_tensor (1 - p)

/-- Probability-zero dropout is the identity, whatever the random draw. -/
theorem dropout_zero {α : Type} [LinearOrderedField α] (keep : Nat → Bool) (t : Tensor α) :
    dropout keep t (some 0) = t := by
  simp [dropout]

/-- C5: dropout with probability `None` or `0` returns the input
unchanged; with probability `1` every output element is `0`; for any
nonzero probability `p` the surviving elements are rescaled by
`1 / (1 - p)` and the dropped ones are zero. -/
theorem dropout_spec {α : Type} [LinearOrderedField α] (keep : Nat → Bool) (t : Tensor α)
    (p : α) (hp : p ≠ 0) :
    dropout keep t none = t
  ∧ dropout keep t (some 0) = t
  ∧ (dropout keep t (some 1)).shape = t.shape
  ∧ (∀ i, (dropout keep t (some 1)).data i = 0)
  ∧ (dropout keep t (some p)).shape = t.shape
  ∧ (∀ i, (dropout keep t (some p)).data i = if keep i then t.data i / (1 - p) else 0) := by
  refine ⟨rfl, dropout_zero keep t, ?_, ?_, ?_, ?_⟩
  · simp [dropout, tf_nn_dropout]
  · intro i
    simp [dropout, tf_nn_dropout]
  · simp [dropout, tf_nn_dropout, hp]
  · intro i
    simp [dropout, tf_nn_dropout, hp]

/-- Witness for C5 with `p = 2` on a concrete rational tensor. -/
theorem dropout_spec_witness :
    ((2 : ℚ) ≠ 0)
  ∧ (dropout (fun i => decide (i % 2 = 0)) (⟨[2], fun i => (i : ℚ)⟩ : Tensor ℚ)
        (some (2 : ℚ))).data 0
      = if decide ((0 : Nat) % 2 = 0) then ((0 : Nat) : ℚ) / (1 - (2 : ℚ)) else 0 :=
  ⟨by decide,
    (dropout_spec (fun i => decide (i % 2 = 0)) ⟨[2], fun i => (i : ℚ)⟩ (2 : ℚ)
      (by decide)).2.2.2.2.2 0⟩

/-- Python `str.lower()`: character-wise lowercase (the activation names
involved are plain ASCII). -/
def str_lower (s : String) : String :=
  ⟨s.data.map Char.toLower⟩

/-- `tf.nn.relu` (external primitive): elementwise rectified linear. -/
def tf_nn_relu {α : Type} [LinearOrderedField α] (x : α) : α :=
  max x 0

/-- `gelu(x)`: the tanh-based Gaussian error linear unit approximation;
`tanhF` stands for `tf.tanh` and `sqrt_two_over_pi` for the float
constant `np.sqrt(2 / np.pi)`. -/
def gelu {α : Type} [LinearOrderedField α] (tanhF : α → α) (sqrt_two_over_pi : α) (x : α) : α :=
  x * (0.5 * (1 + tanhF (sqrt_two_over_pi * (x + 0.044715 * x ^ 3))))

/-- Argument of `get_activation`: `None`, a string name, or a callable
(anything that is not a string is returned verbatim in the source). -/
inductive ActivationInput (α : Type) where
  | noneInput : ActivationInput α
  | string (s : String) : ActivationInput α
  | callable (f : α → α) : ActivationInput α

/-- `get_activation(activation_string)`: maps a name to the pointwise
nonlinearity, passes non-strings through verbatim, fails on unknown
names. -/
def get_activation {α : Type} [LinearOrderedField α] (tanhF : α → α) (sqrt_two_over_pi : α)
    (activation_string : ActivationInput α) : Except Err (Option (α → α)) :=
  match activation_string with
  | .noneInput => .ok none
  | .callable f => .ok (some f)
  | .string s =>
    if s = "" then .ok none
    else if str_lower s = "linear" then .ok none
    else if str_lower s = "relu" then .ok (some tf_nn_relu)
    else if str_lower s = "gelu" then .ok (some (gelu tanhF sqrt_two_over_pi))
    else if str_lower s = "tanh" then .ok (some tanhF)
    else .error (.configError ("Unsupported activation: " ++ str_lower s))

/-- C7: `get_activation` maps `"linear"` and `None` to no activation,
`"relu"` to rectified linear, `"tanh"` to the hyperbolic tangent,
`"gelu"` to the tanh-based approximation
`x * 0.5 * (1 + tanh (sqrt (2 / pi) * (x + 0.044715 * x ^ 3)))`;
any unrecognized string name fails with a configuration error, and
a callable argument is returned verbatim. -/
theorem get_activation_spec (s : String)
    (h : ¬ (s = "" ∨ str_lower s = "linear" ∨ str_lower s = "relu" ∨
            str_lower s = "gelu" ∨ str_lower s = "tanh")) (g : ℝ → ℝ) :
    get_activation Real.tanh (Real.sqrt (2 / Real.pi)) (.string "linear") = .ok none
  ∧ get_activation Real.tanh (Real.sqrt (2 / Real.pi)) (.noneInput) = .ok none
  ∧ get_activation Real.tanh (Real.sqrt (2 / Real.pi)) (.string "relu")
      = .ok (some fun x : ℝ => max x 0)
  ∧ get_activation Real.tanh (Real.sqrt (2 / Real.pi)) (.string "tanh")
      = .ok (some Real.tanh)
  ∧ get_activation Real.tanh (Real.sqrt (2 / Real.pi)) (.string "gelu")
      = .ok (some fun x : ℝ =>
          x * (0.5 * (1 + Real.tanh (Real.sqrt (2 / Real.pi) * (x + 0.044715 * x ^ 3)))))
  ∧ get_activation Real.tanh (Real.sqrt (2 / Real.pi)) (.string s)
      = .error (.configError ("Unsupported activation: " ++ str_lower s))
  ∧ get_activation Real.tanh (Real.sqrt (2 / Real.pi)) (.callable g) = .ok (some g) := by
  push_neg at h
  obtain ⟨h1, h2, h3, h4, h5⟩ := h
  refine ⟨rfl, rfl, rfl, rfl, rfl, ?_, rfl⟩
  simp [get_activation, h1, h2, h3, h4, h5]

/-- Witness for C7 at the unrecognized name `"swish"`. -/
theorem get_activation_spec_witness :
    get_activation Real.tanh (Real.sqrt (2 / Real.pi)) (.string "swish")
      = .error (.configError ("Unsupported activation: " ++ str_lower "swish")) :=
  (get_activation_spec "swish" (by decide) id).2.2.2.2.2.1

/-- `tf.expand_dims(t, axis=[-1])`: append a unit axis (row-major data
unchanged). -/
def tf_expand_dims_last {β : Type} (t : Tensor β) : Tensor β :=
  ⟨t.shape ++ [1], t.data⟩

/-- `tf.one_hot(ids, depth)`: appends a `depth` axis holding the
indicator of the id; an id outside `[0, depth)` yields an all-zero row. -/
def tf_one_hot {α : Type} [LinearOrderedField α] (ids : Tensor Nat) (depth : Nat) : Tensor α :=
  ⟨ids.shape ++ [depth], fun i => if ids.data (i / depth) = i % depth then 1 else 0⟩

/-- `tf.matmul` on rank-2 tensors. -/
def tf_matmul2 {α : Type} [LinearOrderedField α] (a b : Tensor α) : Tensor α :=
  match a.shape, b.shape with
  | [m, k], [_, w] =>
    ⟨[m, w], fun i => ∑ j ∈ Finset.range k, a.data (i / w * k + j) * b.data (j * w + i % w)⟩
  | _, _ => a

/-- `tf.get_variable(name, shape=[rows, cols])`: the learned value of the
variable is supplied externally as a function of row and column. -/
def tf_get_variable_matrix {α : Type} (value : Nat → Nat → α) (rows cols : Nat) : Tensor α :=
  ⟨[rows, cols], fun i => value (i / cols) (i % cols)⟩

/-- `tf.gather(params, indices)`: gather rows of a matrix at flat
indices. -/
def tf_gather {α : Type} (table : Tensor α) (ids : Tensor Nat) : Tensor α :=
  match table.shape, ids.shape with
  | [_, w], [m] => ⟨[m, w], fun i => table.data (ids.data (i / w) * w + i % w)⟩
  | _, _ => table

/-- `embedding_lookup(input_ids, vocab_size, embedding_size, ...,
use_one_hot_embeddings)`: expand rank-2 ids to rank 3, flatten, then
either one-hot matrix-multiply against the table or gather rows
directly, and reshape back; returns the output and the table. -/
def embedding_lookup {α : Type} [LinearOrderedField α] (embedding_table_value : Nat → Nat → α)
    (input_ids : Tensor Nat) (vocab_size embedding_size : Nat)
    (use_one_hot_embeddings : Bool) : Tensor α × Tensor α :=
  let input_ids :=
    if input_ids.shape.length = 2 then tf_expand_dims_last input_ids else input_ids
  let embedding_table := tf_get_variable_matrix embedding_table_value vocab_size embedding_size
  let flat_input_ids := tf_reshape input_ids [input_ids.shape.prod]
  let output :=
    if use_one_hot_embeddings then
      tf_matmul2 (tf_one_hot flat_input_ids vocab_size) embedding_table
    else
      tf_gather embedding_table flat_input_ids
  let input_shape := get_shape_list input_ids
  (tf_reshape output (input_shape.dropLast ++ [input_shape.getLastD 0 * embedding_size]),
    embedding_table)

/-- C3: on a rank-2 id grid whose entries are all below the vocabulary
size, the one-hot strategy and the gather strategy of `embedding_lookup`
produce identical outputs, shape and elements alike; out-of-range ids
are a precondition, not validated. -/
theorem embedding_lookup_equiv {α : Type} [LinearOrderedField α] (table : Nat → Nat → α)
    (input_ids : Tensor Nat) (B S vocab_size embedding_size : Nat)
    (hshape : input_ids.shape = [B, S])
    (hids : ∀ j, j < B * S → input_ids.data j < vocab_size) :
    (embedding_lookup table input_ids vocab_size embedding_size true).1.shape
      = (embedding_lookup table input_ids vocab_size embedding_size false).1.shape
  ∧ ∀ i, i < B * S * embedding_size →
      (embedding_lookup table input_ids vocab_size embedding_size true).1.data i
        = (embedding_lookup table input_ids vocab_size embedding_size false).1.data i := by
  obtain ⟨sh, d⟩ := input_ids
  simp only at hshape
  subst hshape
  constructor
  · rfl
  · intro i hi
    have hw : 0 < embedding_size := by
      rcases Nat.eq_zero_or_pos embedding_size with h0 | h0
      · rw [h0, Nat.mul_zero] at hi
        exact absurd hi (Nat.not_lt_zero i)
      · exact h0
    have himod : i % embedding_size < embedding_size := Nat.mod_lt i hw
    have hidiv : i / embedding_size < B * S := by
      rw [Nat.div_lt_iff_lt_mul hw]
      exact hi
    simp only [embedding_lookup, tf_expand_dims_last, tf_one_hot, tf_matmul2, tf_gather,
      tf_reshape, tf_get_variable_matrix, get_shape_list, List.length_cons, List.length_nil,
      List.cons_append, List.nil_append]
    norm_num
    trans (∑ x ∈ Finset.range vocab_size,
      if d (i / embedding_size) = x then table x (i % embedding_size) else 0)
    · exact Finset.sum_congr rfl (fun x hx => by
        have hxv : x < vocab_size := Finset.mem_range.mp hx
        rw [flat_div _ _ _ hxv, flat_mod _ _ _ hxv, flat_div _ _ _ himod,
            Nat.mul_comm x embedding_size, Nat.mul_add_mod])
    · rw [Finset.sum_ite_eq, if_pos (Finset.mem_range.mpr (hids _ hidiv)),
          flat_div _ _ _ himod,
          Nat.mul_comm (d (i / embedding_size)) embedding_size, Nat.mul_add_mod]

/-- Witness for C3 on a concrete 1-by-2 id grid over a size-3 vocabulary. -/
theorem embedding_lookup_equiv_witness :
    (embedding_lookup (fun i j => (i * 10 + j : ℚ)) ⟨[1, 2], fun j => [1, 0].getD j 0⟩
        3 2 true).1.shape
      = (embedding_lookup (fun i j => (i * 10 + j : ℚ)) ⟨[1, 2], fun j => [1, 0].getD j 0⟩
        3 2 false).1.shape
  ∧ ∀ i, i < 1 * 2 * 2 →
      (embedding_lookup (fun i j => (i * 10 + j : ℚ)) ⟨[1, 2], fun j => [1, 0].getD j 0⟩
          3 2 true).1.data i
        = (embedding_lookup (fun i j => (i * 10 + j : ℚ)) ⟨[1, 2], fun j => [1, 0].getD j 0⟩
          3 2 false).1.data i :=
  embedding_lookup_equiv (fun i j => (i * 10 + j : ℚ)) ⟨[1, 2], fun j => [1, 0].getD j 0⟩
    1 2 3 2 rfl (by decide)

/-- `tf.cast(t, tf.float32)` on an int32 tensor. -/
def tf_cast_int {α : Type} [LinearOrderedField α] (t : Tensor Int) : Tensor α :=
  ⟨t.shape, fun i => (t.data i : α)⟩

/-- `tf.ones(shape)`. -/
def tf_ones {α : Type} [LinearOrderedField α] (shape : List Nat) : Tensor α :=
  ⟨shape, fun _ => 1⟩

/-- Elementwise `*` with broadcasting for the one shape pattern the
source uses: `[B, F, 1] * [B, 1, T] -> [B, F, T]`. -/
def tf_mul_bcast3 {α : Type} [LinearOrderedField α] (x y : Tensor α) : Tensor α :=
  match x.shape, y.shape with
  | [bb, ff, _], [_, _, tt] =>
    ⟨[bb, ff, tt], fun i =>
      x.data (i / tt / ff * ff + i / tt % ff) * y.data (i / tt / ff * tt + i % tt)⟩
  | _, _ => x

/-- `create_attention_mask_from_input_mask(from_tensor, to_mask)`:
shape-check, cast the 2-D validity mask to float, and multiply an
all-ones `[B, F, 1]` tensor against the `[B, 1, T]` mask. -/
def create_attention_mask_from_input_mask {α : Type} [LinearOrderedField α] {β : Type}
    (from_tensor : Tensor β) (to_mask : Tensor Int) : Except Err (Tensor α) := do
  let from_shape ← get_shape_list_checked from_tensor [2, 3]
  let batch_size := from_shape.getD 0 0
  let from_seq_length := from_shape.getD 1 0
  let to_shape ← get_shape_list_checked to_mask [2]
  let to_seq_length := to_shape.getD 1 0
  let to_mask_f : Tensor α := tf_cast_int (tf_reshape to_mask [batch_size, 1, to_seq_length])
  let broadcast_ones : Tensor α := tf_ones [batch_size, from_seq_length, 1]
  pure (tf_mul_bcast3 broadcast_ones to_mask_f)

/-- C4: for every rank-2 or rank-3 from-tensor with leading extents
`[B, F]` and every 2-D mask `[B, T]`, the builder returns the
`[B, F, T]` tensor whose entry at `(b, f, t)` is the cast of
`to_mask[b, t]` — every from-position shares the same to-side masking
row. -/
theorem create_attention_mask_spec {α : Type} [LinearOrderedField α] {β : Type}
    (from_tensor : Tensor β) (to_mask : Tensor Int) (B F T b f t : Nat)
    (hfrom : from_tensor.shape = [B, F] ∨ ∃ X, from_tensor.shape = [B, F, X])
    (hto : to_mask.shape = [B, T])
    (hb : b < B) (hf : f < F) (ht : t < T) :
    ∃ mask : Tensor α, create_attention_mask_from_input_mask from_tensor to_mask = .ok mask
      ∧ mask.shape = [B, F, T]
      ∧ mask.data ((b * F + f) * T + t) = ((to_mask.data (b * T + t) : Int) : α) := by
  obtain ⟨shm, dm⟩ := to_mask
  have hsm : shm = [B, T] := hto
  subst hsm
  obtain ⟨shf, df⟩ := from_tensor
  rcases hfrom with h2 | ⟨X, h2⟩
  · have hsf : shf = [B, F] := h2
    subst hsf
    refine ⟨tf_mul_bcast3 (tf_ones [B, F, 1])
      (tf_cast_int (tf_reshape ⟨[B, T], dm⟩ [B, 1, T])), rfl, rfl, ?_⟩
    simp only [tf_mul_bcast3, tf_ones, tf_cast_int, tf_reshape]
    rw [flat_mod _ _ _ ht, flat_div _ _ _ ht, flat_div _ _ _ hf]
    simp
  · have hsf : shf = [B, F, X] := h2
    subst hsf
    refine ⟨tf_mul_bcast3 (tf_ones [B, F, 1])
      (tf_cast_int (tf_reshape ⟨[B, T], dm⟩ [B, 1, T])), rfl, rfl, ?_⟩
    simp only [tf_mul_bcast3, tf_ones, tf_cast_int, tf_reshape]
    rw [flat_mod _ _ _ ht, flat_div _ _ _ ht, flat_div _ _ _ hf]
    simp

/-- Witness for C4 on a concrete 1-by-2 validity mask. -/
theorem create_attention_mask_spec_witness :
    ∃ mask : Tensor ℚ,
      create_attention_mask_from_input_mask (⟨[1, 2], fun _ => (0 : ℚ)⟩ : Tensor ℚ)
          (⟨[1, 2], fun j => [1, 0].getD j 0⟩ : Tensor Int) = .ok mask
        ∧ mask.shape = [1, 2, 2]
        ∧ mask.data ((0 * 2 + 1) * 2 + 1)
            = (((⟨[1, 2], fun j => [1, 0].getD j 0⟩ : Tensor Int).data (0 * 2 + 1) : Int) : ℚ) :=
  create_attention_mask_spec (⟨[1, 2], fun _ => (0 : ℚ)⟩ : Tensor ℚ)
    (⟨[1, 2], fun j => [1, 0].getD j 0⟩ : Tensor Int) 1 2 2 0 1 1
    (Or.inl rfl) rfl (by decide) (by decide) (by decide)

/-- Apply an optional activation (the `activation=` argument of
`tf.layers.dense`). -/
def apply_activation {α : Type} (act : Option (α → α)) (v : α) : α :=
  match act with
  | none => v
  | some f => f v

/-- `tf.layers.dense(x, units, activation, kernel_initializer)` on a
rank-2 input: affine transform `act(x W + b)`; the learned kernel and
bias are supplied externally. -/
def tf_layers_dense {α : Type} [LinearOrderedField α] (x : Tensor α) (units : Nat)
    (act : Option (α → α)) (kernel : Nat → Nat → α) (bias : Nat → α) : Tensor α :=
  let rows := x.shape.headD 0
  let in_width := x.shape.getLastD 0
  ⟨[rows, units], fun i => apply_activation act
    ((∑ k ∈ Finset.range in_width, x.data (i / units * in_width + k) * kernel k (i % units))
      + bias (i % units))⟩

/-- `tf.transpose(t, [0, 2, 1, 3])` on a rank-4 tensor. -/
def tf_transpose_0213 {β : Type} (t : Tensor β) : Tensor β :=
  match t.shape with
  | [d0, d1, d2, d3] =>
    ⟨[d0, d2, d1, d3], fun i =>
      t.data (((i / d3 / d1 / d2 * d1 + i / d3 % d1) * d2 + i / d3 / d1 % d2) * d3 + i % d3)⟩
  | _ => t

/-- `transpose_for_scores`: reshape `[B*S, N*H]` to `[B, S, N, H]` and
transpose to the per-head layout `[B, N, S, H]`. -/
def transpose_for_scores {β : Type} (input_tensor : Tensor β)
    (batch_size num_attention_heads seq_length width : Nat) : Tensor β :=
  tf_transpose_0213
    (tf_reshape input_tensor [batch_size, seq_length, num_attention_heads, width])

/-- `tf.matmul(q, k, transpose_b=True)` on rank-4 tensors
`[B, N, F, H] x [B, N, T, H] -> [B, N, F, T]`. -/
def tf_matmul4_transpose_b {α : Type} [LinearOrderedField α] (q k : Tensor α) : Tensor α :=
  match q.shape, k.shape with
  | [db, dn, df, dh], [_, _, dt, _] =>
    ⟨[db, dn, df, dt], fun i =>
      ∑ h ∈ Finset.range dh,
        q.data (((i / dt / df / dn * dn + i / dt / df % dn) * df + i / dt % df) * dh + h)
          * k.data (((i / dt / df / dn * dn + i / dt / df % dn) * dt + i % dt) * dh + h)⟩
  | _, _ => q

/-- `tf.multiply(t, c)` with a scalar. -/
def tf_scalar_multiply {α : Type} [LinearOrderedField α] (t : Tensor α) (c : α) : Tensor α :=
  ⟨t.shape, fun i => t.data i * c⟩

/-- `tf.expand_dims(t, axis=[1])`: insert a unit axis in second
position (row-major data unchanged). -/
def tf_expand_dims_axis1 {β : Type} (t : Tensor β) : Tensor β :=
  match t.shape with
  | d0 :: rest => ⟨d0 :: 1 :: rest, t.data⟩
  | [] => ⟨[1], t.data⟩

/-- Elementwise map (used for `(1 - mask) * -10000`). -/
def tf_map {α : Type} (f : α → α) (t : Tensor α) : Tensor α :=
  ⟨t.shape, fun i => f (t.data i)⟩

/-- Elementwise `+` with broadcasting for the one pattern the source
uses: `[B, N, F, T] + [B, 1, F, T]`. -/
def tf_add_bcast_axis1 {α : Type} [LinearOrderedField α] (x y : Tensor α) : Tensor α :=
  match x.shape, y.shape with
  | [db, dn, df, dt], [_, _, df1, dt1] =>
    ⟨[db, dn, df, dt], fun i =>
      x.data i + y.data ((i / dt / df / dn * df1 + i / dt % df) * dt1 + i % dt)⟩
  | _, _ => x

/-- `tf.nn.softmax` over the last axis; `expF` stands for the
exponential. -/
def tf_softmax {α : Type} [LinearOrderedField α] (expF : α → α) (t : Tensor α) : Tensor α :=
  let width := t.shape.getLastD 0
  ⟨t.shape, fun i =>
    expF (t.data i) / ∑ k ∈ Finset.range width, expF (t.data (i / width * width + k))⟩

/-- `tf.matmul(p, v)` on rank-4 tensors
`[B, N, F, T] x [B, N, T, H] -> [B, N, F, H]`. -/
def tf_matmul4 {α : Type} [LinearOrderedField α] (p v : Tensor α) : Tensor α :=
  match p.shape, v.shape with
  | [db, dn, df, dt], [_, _, _, dh] =>
    ⟨[db, dn, df, dh], fun i =>
      ∑ t ∈ Finset.range dt,
        p.data (((i / dh / df / dn * dn + i / dh / df % dn) * df + i / dh % df) * dt + t)
          * v.data (((i / dh / df / dn * dn + i / dh / df % dn) * dt + t) * dh + i % dh)⟩
  | _, _ => p

/-- Lines 768-805 of the source: transpose query and key into per-head
layout, raw scores by `q k^T`, scale by `1 / sqrt(size_per_head)`, and,
when a mask is supplied, add `(1 - mask) * -10000` broadcast across the
head axis. -/
def attention_scores_pipeline {α : Type} [LinearOrderedField α] (sqrtF : α → α)
    (query_layer key_layer : Tensor α) (attention_mask : Option (Tensor α))
    (batch_size num_attention_heads from_seq_length to_seq_length size_per_head : Nat) :
    Tensor α :=
  let query_layer :=
    transpose_for_scores query_layer batch_size num_attention_heads from_seq_length size_per_head
  let key_layer :=
    transpose_for_scores key_layer batch_size num_attention_heads to_seq_length size_per_head
  let attention_scores := tf_matmul4_transpose_b query_layer key_layer
  let attention_scores :=
    tf_scalar_multiply attention_scores (1 / sqrtF (size_per_head : α))
  match attention_mask with
  | none => attention_scores
  | some mask =>
    let mask4 := tf_expand_dims_axis1 mask
    let adder := tf_map (fun v => (1 - v) * (-10000)) mask4
    tf_add_bcast_axis1 attention_scores adder

/-- Entry of the scaled raw attention scores: dot product of the
per-head query and key rows times the scale factor. -/
theorem scores_entry {α : Type} [LinearOrderedField α] (q k : Tensor α) (c : α)
    (B N F T H b n f t : Nat) (hb : b < B) (hn : n < N) (hf : f < F) (ht : t < T) :
    (tf_scalar_multiply
        (tf_matmul4_transpose_b (transpose_for_scores q B N F H)
          (transpose_for_scores k B N T H)) c).data (((b * N + n) * F + f) * T + t)
      = (∑ h ∈ Finset.range H,
          q.data ((b * F + f) * (N * H) + (n * H + h))
            * k.data ((b * T + t) * (N * H) + (n * H + h))) * c := by
  simp only [transpose_for_scores, tf_transpose_0213, tf_reshape, tf_matmul4_transpose_b,
    tf_scalar_multiply]
  rw [flat_mod _ _ _ ht, flat_div _ _ _ ht, flat_mod _ _ _ hf, flat_div _ _ _ hf,
      flat_mod _ _ _ hn, flat_div _ _ _ hn]
  refine congrArg (fun z => z * c) (Finset.sum_congr rfl fun h hh => ?_)
  have hh2 : h < H := Finset.mem_range.mp hh
  rw [flat_mod _ _ _ hh2, flat_div _ _ _ hh2, flat_mod _ _ _ hf, flat_div _ _ _ hf,
      flat_mod _ _ _ hn, flat_div _ _ _ hn]
  rw [flat_mod _ _ _ hh2, flat_div _ _ _ hh2, flat_mod _ _ _ ht, flat_div _ _ _ ht,
      flat_mod _ _ _ hn, flat_div _ _ _ hn]
  have e1 : ((b * F + f) * N + n) * H + h = (b * F + f) * (N * H) + (n * H + h) := by ring
  have e2 : ((b * T + t) * N + n) * H + h = (b * T + t) * (N * H) + (n * H + h) := by ring
  rw [e1, e2]


/-- Data access for the broadcast add, given the shapes of both
operands. -/
theorem tf_add_bcast_axis1_data {α : Type} [LinearOrderedField α] (x y : Tensor α)
    (db dn df dt b1 n1 df1 dt1 i : Nat)
    (hx : x.shape = [db, dn, df, dt]) (hy : y.shape = [b1, n1, df1, dt1]) :
    (tf_add_bcast_axis1 x y).data i
      = x.data i + y.data ((i / dt / df / dn * df1 + i / dt % df) * dt1 + i % dt) := by
  obtain ⟨sx, dx⟩ := x
  obtain ⟨sy, dy⟩ := y
  have hsx : sx = [db, dn, df, dt] := hx
  have hsy : sy = [b1, n1, df1, dt1] := hy
  subst hsx
  subst hsy
  rfl


/-- C1: the attention scores fed to softmax equal the per-head
`query . key^T` scaled by `1 / sqrt size_per_head`, plus, when a mask is
supplied, the additive bias `(1 - mask) * (-10000)` broadcast across the
head axis; with no mask no bias is added. -/
theorem attention_scores_spec (query_layer key_layer : Tensor ℝ) (mask : Tensor ℝ)
    (B N F T H b n f t : Nat) (hmask : mask.shape = [B, F, T])
    (hb : b < B) (hn : n < N) (hf : f < F) (ht : t < T) :
    (attention_scores_pipeline Real.sqrt query_layer key_layer (some mask) B N F T H).data
        (((b * N + n) * F + f) * T + t)
      = (∑ h ∈ Finset.range H,
          query_layer.data ((b * F + f) * (N * H) + (n * H + h))
            * key_layer.data ((b * T + t) * (N * H) + (n * H + h)))
          * (1 / Real.sqrt (H : ℝ))
        + (1 - mask.data ((b * F + f) * T + t)) * (-10000)
  ∧ (attention_scores_pipeline Real.sqrt query_layer key_layer none B N F T H).data
        (((b * N + n) * F + f) * T + t)
      = (∑ h ∈ Finset.range H,
          query_layer.data ((b * F + f) * (N * H) + (n * H + h))
            * key_layer.data ((b * T + t) * (N * H) + (n * H + h)))
          * (1 / Real.sqrt (H : ℝ)) := by
  constructor
  · obtain ⟨shm, dmm⟩ := mask
    have hsm : shm = [B, F, T] := hmask
    subst hsm
    show (tf_add_bcast_axis1
        (tf_scalar_multiply
          (tf_matmul4_transpose_b (transpose_for_scores query_layer B N F H)
            (transpose_for_scores key_layer B N T H)) (1 / Real.sqrt (H : ℝ)))
        (tf_map (fun v => (1 - v) * (-10000))
          (tf_expand_dims_axis1 ⟨[B, F, T], dmm⟩))).data (((b * N + n) * F + f) * T + t) = _
    rw [tf_add_bcast_axis1_data _ _ B N F T B 1 F T _ rfl rfl]
    rw [scores_entry query_layer key_layer (1 / Real.sqrt (H : ℝ)) B N F T H b n f t hb hn hf ht]
    rw [flat_mod _ _ _ ht, flat_div _ _ _ ht, flat_mod _ _ _ hf, flat_div _ _ _ hf,
        flat_div _ _ _ hn]
    rfl
  · exact scores_entry query_layer key_layer (1 / Real.sqrt (H : ℝ)) B N F T H b n f t
      hb hn hf ht

/-- Witness for C1 with all extents equal to one. -/
theorem attention_scores_spec_witness :
    (attention_scores_pipeline Real.sqrt (⟨[1, 1], fun _ => 1⟩ : Tensor ℝ)
        ⟨[1, 1], fun _ => 1⟩ (some ⟨[1, 1, 1], fun _ => 1⟩) 1 1 1 1 1).data
        (((0 * 1 + 0) * 1 + 0) * 1 + 0)
      = (∑ h ∈ Finset.range 1,
          (⟨[1, 1], fun _ => (1 : ℝ)⟩ : Tensor ℝ).data ((0 * 1 + 0) * (1 * 1) + (0 * 1 + h))
            * (⟨[1, 1], fun _ => (1 : ℝ)⟩ : Tensor ℝ).data ((0 * 1 + 0) * (1 * 1) + (0 * 1 + h)))
          * (1 / Real.sqrt ((1 : Nat) : ℝ))
        + (1 - (⟨[1, 1, 1], fun _ => (1 : ℝ)⟩ : Tensor ℝ).data ((0 * 1 + 0) * 1 + 0)) * (-10000)
  ∧ (attention_scores_pipeline Real.sqrt (⟨[1, 1], fun _ => 1⟩ : Tensor ℝ)
        ⟨[1, 1], fun _ => 1⟩ none 1 1 1 1 1).data (((0 * 1 + 0) * 1 + 0) * 1 + 0)
      = (∑ h ∈ Finset.range 1,
          (⟨[1, 1], fun _ => (1 : ℝ)⟩ : Tensor ℝ).data ((0 * 1 + 0) * (1 * 1) + (0 * 1 + h))
            * (⟨[1, 1], fun _ => (1 : ℝ)⟩ : Tensor ℝ).data ((0 * 1 + 0) * (1 * 1) + (0 * 1 + h)))
          * (1 / Real.sqrt ((1 : Nat) : ℝ)) :=
  attention_scores_spec ⟨[1, 1], fun _ => 1⟩ ⟨[1, 1], fun _ => 1⟩ ⟨[1, 1, 1], fun _ => 1⟩
    1 1 1 1 1 0 0 0 0 rfl (by decide) (by decide) (by decide) (by decide)

/-- `attention_layer(from_tensor, to_tensor, ...)`: multi-head attention.
Shape validation first (rank check against 2 or 3, rank equality of the
two inputs, mandatory batch/length hints for rank-2 inputs), then the
query/key/value projections, the score pipeline, softmax, attention
dropout, and the weighted sum of values.  `sqrtF`/`expF` stand for the
square root and exponential primitives, `keep` for the dropout
randomness, and the kernels/biases for the externally learned dense
parameters. -/
def attention_layer {α : Type} [LinearOrderedField α] (sqrtF expF : α → α) (keep : Nat → Bool)
    (query_kernel : Nat → Nat → α) (query_bias : Nat → α)
    (key_kernel : Nat → Nat → α) (key_bias : Nat → α)
    (value_kernel : Nat → Nat → α) (value_bias : Nat → α)
    (from_tensor to_tensor : Tensor α) (attention_mask : Option (Tensor α))
    (num_attention_heads size_per_head : Nat)
    (query_act key_act value_act : Option (α → α))
    (attention_probs_dropout_prob : α) (do_return_2d_tensor : Bool)
    (batch_size from_seq_length to_seq_length : Option Nat) : Except Err (Tensor α) := do
  let from_shape ← get_shape_list_checked from_tensor [2, 3]
  let to_shape ← get_shape_list_checked to_tensor [2, 3]
  if from_shape.length ≠ to_shape.length then
    .error (.shapeError "The rank of from_tensor must match the rank of to_tensor.")
  else do
    let dims ← (if from_shape.length = 3 then
        .ok (from_shape.getD 0 0, from_shape.getD 1 0, to_shape.getD 1 0)
      else
        match batch_size, from_seq_length, to_seq_length with
        | some bs, some fsl, some tsl => .ok (bs, fsl, tsl)
        | _, _, _ => .error (.shapeError
            "When passing in rank 2 tensors to attention_layer, the values for batch_size, from_seq_length, and to_seq_length must all be specified.")
      : Except Err (Nat × Nat × Nat))
    let (bs, fsl, tsl) := dims
    let from_tensor_2d ← reshape_to_matrix from_tensor
    let to_tensor_2d ← reshape_to_matrix to_tensor
    let query_layer := tf_layers_dense from_tensor_2d
      (num_attention_heads * size_per_head) query_act query_kernel query_bias
    let key_layer := tf_layers_dense to_tensor_2d
      (num_attention_heads * size_per_head) key_act key_kernel key_bias
    let value_layer := tf_layers_dense to_tensor_2d
      (num_attention_heads * size_per_head) value_act value_kernel value_bias
    let attention_scores := attention_scores_pipeline sqrtF query_layer key_layer
      attention_mask bs num_attention_heads fsl tsl size_per_head
    let attention_probs := tf_softmax expF attention_scores
    let attention_probs := dropout keep attention_probs (some attention_probs_dropout_prob)
    let value_layer := tf_reshape value_layer [bs, tsl, num_attention_heads, size_per_head]
    let value_layer := tf_transpose_0213 value_layer
    let context_layer := tf_matmul4 attention_probs value_layer
    let context_layer := tf_transpose_0213 context_layer
    if do_return_2d_tensor then
      pure (tf_reshape context_layer [bs * fsl, num_attention_heads * size_per_head])
    else
      pure (tf_reshape context_layer [bs, fsl, num_attention_heads * size_per_head])

/-- `true` exactly when the computation failed with a shape error. -/
def except_is_shape_error {γ : Type} (e : Except Err γ) : Bool :=
  match e with
  | .error (.shapeError _) => true
  | _ => false

/-- `true` exactly when the computation succeeded. -/
def except_is_ok {γ : Type} (e : Except Err γ) : Bool :=
  match e with
  | .ok _ => true
  | _ => false
/-- Checked shape query succeeds when the rank is allowed. -/
theorem gslc_mem {β : Type} (t : Tensor β) (e : List Nat) (h : t.shape.length ∈ e) :
    get_shape_list_checked t e = .ok t.shape := by
  simp only [get_shape_list_checked, assert_rank, if_pos h]
  rfl


/-- Checked shape query fails with a shape error otherwise. -/
theorem gslc_not_mem {β : Type} (t : Tensor β) (e : List Nat) (h : t.shape.length ∉ e) :
    get_shape_list_checked t e
      = .error (.shapeError "the actual rank is not equal to the expected rank") := by
  simp only [get_shape_list_checked, assert_rank, if_neg h]
  rfl


/-- Reduction of a successful bind in the error monad. -/
theorem bind_ok_reduce {γ δ : Type} (x : γ) (f : γ → Except Err δ) :
    (Bind.bind (Except.ok x) f : Except Err δ) = f x :=
  rfl


/-- C8: `attention_layer` fails with a shape error whenever the ranks of
`from_tensor` and `to_tensor` differ, and whenever both are rank 2 and
any of the batch/length hints is omitted; it succeeds when both inputs
are rank 3, and when both are rank 2 with all three hints supplied. -/
theorem attention_layer_validation_spec {α : Type} [LinearOrderedField α]
    (sqrtF expF : α → α) (keep : Nat → Bool)
    (qk : Nat → Nat → α) (qb : Nat → α) (kk : Nat → Nat → α) (kb : Nat → α)
    (vk : Nat → Nat → α) (vb : Nat → α)
    (from_tensor to_tensor : Tensor α) (attention_mask : Option (Tensor α))
    (N H : Nat) (qa ka va : Option (α → α)) (p : α) (r2 : Bool)
    (bs fsl tsl : Option Nat) :
    (from_tensor.shape.length ≠ to_tensor.shape.length →
      except_is_shape_error (attention_layer sqrtF expF keep qk qb kk kb vk vb
        from_tensor to_tensor attention_mask N H qa ka va p r2 bs fsl tsl) = true)
  ∧ (from_tensor.shape.length = 2 → to_tensor.shape.length = 2 →
      (bs = none ∨ fsl = none ∨ tsl = none) →
      except_is_shape_error (attention_layer sqrtF expF keep qk qb kk kb vk vb
        from_tensor to_tensor attention_mask N H qa ka va p r2 bs fsl tsl) = true)
  ∧ (from_tensor.shape.length = 3 → to_tensor.shape.length = 3 →
      except_is_ok (attention_layer sqrtF expF keep qk qb kk kb vk vb
        from_tensor to_tensor attention_mask N H qa ka va p r2 bs fsl tsl) = true)
  ∧ (from_tensor.shape.length = 2 → to_tensor.shape.length = 2 → ∀ b3 f3 t3 : Nat,
      except_is_ok (attention_layer sqrtF expF keep qk qb kk kb vk vb
        from_tensor to_tensor attention_mask N H qa ka va p r2
        (some b3) (some f3) (some t3)) = true) := by
  refine ⟨?_, ?_, ?_, ?_⟩
  · intro hne
    by_cases hfm : from_tensor.shape.length ∈ [2, 3]
    · by_cases htm : to_tensor.shape.length ∈ [2, 3]
      · simp only [attention_layer, gslc_mem _ _ hfm, gslc_mem _ _ htm, bind_ok_reduce]
        rw [if_pos hne]
        rfl
      · simp only [attention_layer, gslc_mem _ _ hfm, gslc_not_mem _ _ htm, bind_ok_reduce]
        rfl
    · simp only [attention_layer, gslc_not_mem _ _ hfm]
      rfl
  · intro hf2 ht2 hmiss
    have hfm : from_tensor.shape.length ∈ [2, 3] := by rw [hf2]; decide
    have htm : to_tensor.shape.length ∈ [2, 3] := by rw [ht2]; decide
    simp only [attention_layer, gslc_mem _ _ hfm, gslc_mem _ _ htm, bind_ok_reduce]
    rw [if_neg (by rw [hf2, ht2]; exact fun hcon => hcon rfl)]
    rw [if_neg (by rw [hf2]; decide)]
    rcases hmiss with hb | hb | hb
    · subst hb
      rfl
    · subst hb
      cases bs <;> rfl
    · subst hb
      cases bs <;> cases fsl <;> rfl
  · intro hf3 ht3
    obtain ⟨a1, a2, a3, hfa⟩ := List.length_eq_three.mp hf3
    obtain ⟨c1, c2, c3, hta⟩ := List.length_eq_three.mp ht3
    obtain ⟨sf, df⟩ := from_tensor
    obtain ⟨st, dt⟩ := to_tensor
    have hsf : sf = [a1, a2, a3] := hfa
    have hst : st = [c1, c2, c3] := hta
    subst hsf
    subst hst
    cases r2 <;> rfl
  · intro hf2 ht2 b3 f3 t3
    obtain ⟨a1, a2, hfa⟩ := List.length_eq_two.mp hf2
    obtain ⟨c1, c2, hta⟩ := List.length_eq_two.mp ht2
    obtain ⟨sf, df⟩ := from_tensor
    obtain ⟨st, dt⟩ := to_tensor
    have hsf : sf = [a1, a2] := hfa
    have hst : st = [c1, c2] := hta
    subst hsf
    subst hst
    cases r2 <;> rfl

/-- Witness for C8: a rank-2/rank-3 pair is rejected, a rank-3 pair is
accepted. -/
theorem attention_layer_validation_spec_witness :
    except_is_shape_error (attention_layer (α := ℚ) id id (fun _ => true)
        (fun _ _ => 0) (fun _ => 0) (fun _ _ => 0) (fun _ => 0) (fun _ _ => 0) (fun _ => 0)
        ⟨[1, 1], fun _ => 0⟩ ⟨[1, 1, 1], fun _ => 0⟩ none 1 1 none none none 0 false
        none none none) = true
  ∧ except_is_ok (attention_layer (α := ℚ) id id (fun _ => true)
        (fun _ _ => 0) (fun _ => 0) (fun _ _ => 0) (fun _ => 0) (fun _ _ => 0) (fun _ => 0)
        ⟨[1, 1, 1], fun _ => 0⟩ ⟨[1, 1, 1], fun _ => 0⟩ none 1 1 none none none 0 false
        none none none) = true :=
  ⟨(attention_layer_validation_spec id id (fun _ => true)
      (fun _ _ => 0) (fun _ => 0) (fun _ _ => 0) (fun _ => 0) (fun _ _ => 0) (fun _ => 0)
      ⟨[1, 1], fun _ => 0⟩ ⟨[1, 1, 1], fun _ => 0⟩ none 1 1 none none none 0 false
      none none none).1 (by decide),
    (attention_layer_validation_spec id id (fun _ => true)
      (fun _ _ => 0) (fun _ => 0) (fun _ _ => 0) (fun _ => 0) (fun _ _ => 0) (fun _ => 0)
      ⟨[1, 1, 1], fun _ => 0⟩ ⟨[1, 1, 1], fun _ => 0⟩ none 1 1 none none none 0 false
      none none none).2.2.1 (by decide) (by decide)⟩

/-- Elementwise `+` of two same-shape tensors (the residual add). -/
def tensor_add {α : Type} [LinearOrderedField α] (x y : Tensor α) : Tensor α :=
  ⟨x.shape, fun i => x.data i + y.data i⟩

/-- Modelled from the spec: `tf.contrib.layers.layer_norm` (external
primitive): mean/variance standardization over the last axis with a
learnable scale `gamma` and shift `beta`; `sqrtF` stands for the square
root. -/
def layer_norm {α : Type} [LinearOrderedField α] (sqrtF : α → α) (gamma beta : Nat → α)
    (t : Tensor α) : Tensor α :=
  let width := t.shape.getLastD 0
  ⟨t.shape, fun i =>
    let mu := (∑ k ∈ Finset.range width, t.data (i / width * width + k)) / (width : α)
    let sigma2 :=
      (∑ k ∈ Finset.range width, (t.data (i / width * width + k) - mu) ^ 2) / (width : α)
    gamma (i % width) * ((t.data i - mu) / sqrtF sigma2) + beta (i % width)⟩

/-- The externally learned parameters of one transformer layer. -/
structure LayerWeights (α : Type) where
  query_kernel : Nat → Nat → α
  query_bias : Nat → α
  key_kernel : Nat → Nat → α
  key_bias : Nat → α
  value_kernel : Nat → Nat → α
  value_bias : Nat → α
  attention_output_kernel : Nat → Nat → α
  attention_output_bias : Nat → α
  attention_ln_gamma : Nat → α
  attention_ln_beta : Nat → α
  intermediate_kernel : Nat → Nat → α
  intermediate_bias : Nat → α
  output_kernel : Nat → Nat → α
  output_bias : Nat → α
  output_ln_gamma : Nat → α
  output_ln_beta : Nat → α

/-- `int(hidden_size / num_attention_heads)`: the per-head width fixed
by the transformer stack. -/
def attention_head_size (hidden_size num_attention_heads : Nat) : Nat :=
  hidden_size / num_attention_heads

/-- One transformer layer (the body of the loop in `transformer_model`):
self-attention in 2-D output mode, projection back to `hidden_size`,
dropout, residual add and normalization, then the feed-forward block
with its own dropout, residual add and normalization.  `rand s` is the
dropout randomness of call site `s` of this layer. -/
def transformer_layer {α : Type} [LinearOrderedField α] (sqrtF expF : α → α)
    (rand : Nat → Nat → Bool) (w : LayerWeights α) (layer_input : Tensor α)
    (attention_mask : Option (Tensor α))
    (batch_size seq_length hidden_size num_attention_heads size_per_head
      intermediate_size : Nat)
    (intermediate_act_fn : Option (α → α))
    (hidden_dropout_prob attention_probs_dropout_prob : α) : Except Err (Tensor α) := do
  let attention_head ← attention_layer sqrtF expF (fun i => rand 0 i)
    w.query_kernel w.query_bias w.key_kernel w.key_bias w.value_kernel w.value_bias
    layer_input layer_input attention_mask num_attention_heads size_per_head
    none none none attention_probs_dropout_prob true
    (some batch_size) (some seq_length) (some seq_length)
  let attention_heads := [attention_head]
  let attention_output := match attention_heads with
    | [single] => single
    | _ => ⟨[], fun _ => 0⟩
  let attention_output := tf_layers_dense attention_output hidden_size none
    w.attention_output_kernel w.attention_output_bias
  let attention_output := dropout (fun i => rand 1 i) attention_output
    (some hidden_dropout_prob)
  let attention_output := layer_norm sqrtF w.attention_ln_gamma w.attention_ln_beta
    (tensor_add attention_output layer_input)
  let intermediate_output := tf_layers_dense attention_output intermediate_size
    intermediate_act_fn w.intermediate_kernel w.intermediate_bias
  let layer_output := tf_layers_dense intermediate_output hidden_size none
    w.output_kernel w.output_bias
  let layer_output := dropout (fun i => rand 2 i) layer_output (some hidden_dropout_prob)
  let layer_output := layer_norm sqrtF w.output_ln_gamma w.output_ln_beta
    (tensor_add layer_output attention_output)
  pure layer_output

/-- Result of `transformer_model`: all layer outputs, or only the final
one. -/
inductive TransformerOut (α : Type) where
  | many (layers : List (Tensor α)) : TransformerOut α
  | one (t : Tensor α) : TransformerOut α

/-- The variable names allocated while building layer `layer_idx`
(`tf.layers.dense` kernels/biases and the normalization parameters). -/
def layer_var_names (layer_idx : Nat) : List String :=
  ["layer_" ++ toString layer_idx ++ "/attention/self/query",
   "layer_" ++ toString layer_idx ++ "/attention/self/key",
   "layer_" ++ toString layer_idx ++ "/attention/self/value",
   "layer_" ++ toString layer_idx ++ "/attention/output/dense",
   "layer_" ++ toString layer_idx ++ "/attention/output/LayerNorm",
   "layer_" ++ toString layer_idx ++ "/intermediate/dense",
   "layer_" ++ toString layer_idx ++ "/output/dense",
   "layer_" ++ toString layer_idx ++ "/output/LayerNorm"]

/-- One fold step of the layer loop: propagate an error, or run the next
layer and record its allocated variable names. -/
def transformer_step {α : Type} [LinearOrderedField α] (sqrtF expF : α → α)
    (rand : Nat → Nat → Bool) (weights : Nat → LayerWeights α)
    (attention_mask : Option (Tensor α))
    (batch_size seq_length hidden_size num_attention_heads size_per_head
      intermediate_size : Nat)
    (intermediate_act_fn : Option (α → α))
    (hidden_dropout_prob attention_probs_dropout_prob : α)
    (acc : List String × Except Err (Tensor α × List (Tensor α))) (layer_idx : Nat) :
    List String × Except Err (Tensor α × List (Tensor α)) :=
  match acc with
  | (log, .error e) => (log, .error e)
  | (log, .ok (prev_output, all_layer_outputs)) =>
    match transformer_layer sqrtF expF (fun s i => rand (3 * layer_idx + s) i)
        (weights layer_idx) prev_output attention_mask batch_size seq_length
        hidden_size num_attention_heads size_per_head intermediate_size
        intermediate_act_fn hidden_dropout_prob attention_probs_dropout_prob with
    | .error e => (log, .error e)
    | .ok layer_output =>
      (log ++ layer_var_names layer_idx,
        .ok (layer_output, all_layer_outputs ++ [layer_output]))

/-- `transformer_model(input_tensor, ...)`: the stacked encoder.  The
divisibility of `hidden_size` by `num_attention_heads` is checked first;
`var_log` accumulates the names of the weight tensors allocated while
building, so an error before any layer is built leaves it unchanged. -/
def transformer_model {α : Type} [LinearOrderedField α] (sqrtF expF : α → α)
    (rand : Nat → Nat → Bool) (weights : Nat → LayerWeights α) (input_tensor : Tensor α)
    (attention_mask : Option (Tensor α))
    (hidden_size num_hidden_layers num_attention_heads intermediate_size : Nat)
    (intermediate_act_fn : Option (α → α))
    (hidden_dropout_prob attention_probs_dropout_prob : α)
    (do_return_all_layers : Bool) (var_log : List String) :
    List String × Except Err (TransformerOut α) :=
  if hidden_size % num_attention_heads ≠ 0 then
    (var_log, .error (.configError ("The hidden size (" ++ toString hidden_size
      ++ ") is not a multiple of the number of attention heads ("
      ++ toString num_attention_heads ++ ")")))
  else
    match get_shape_list_checked input_tensor [3] with
    | .error e => (var_log, .error e)
    | .ok input_shape =>
      let batch_size := input_shape.getD 0 0
      let seq_length := input_shape.getD 1 0
      let input_width := input_shape.getD 2 0
      if input_width ≠ hidden_size then
        (var_log, .error (.shapeError ("The width of the input tensor ("
          ++ toString input_width ++ ") is not equal to the hidden size ("
          ++ toString hidden_size ++ ")")))
      else
        match reshape_to_matrix input_tensor with
        | .error e => (var_log, .error e)
        | .ok prev0 =>
          match (List.range num_hidden_layers).foldl
              (transformer_step sqrtF expF rand weights attention_mask batch_size
                seq_length hidden_size num_attention_heads
                (attention_head_size hidden_size num_attention_heads) intermediate_size
                intermediate_act_fn hidden_dropout_prob attention_probs_dropout_prob)
              (var_log, .ok (prev0, [])) with
          | (log, .error e) => (log, .error e)
          | (log, .ok (prev_output, all_layer_outputs)) =>
            if do_return_all_layers then
              (log, .ok (.many (all_layer_outputs.map
                (fun lo => reshape_from_matrix lo input_shape))))
            else
              (log, .ok (.one (reshape_from_matrix prev_output input_shape)))

/-- Dropout preserves the shape. -/
theorem dropout_shape {α : Type} [LinearOrderedField α] (keep : Nat → Bool) (t : Tensor α)
    (d : Option α) : (dropout keep t d).shape = t.shape := by
  cases d with
  | none => rfl
  | some p =>
    by_cases hp : p = 0
    · rw [dropout, if_pos hp]
    · rw [dropout, if_neg hp]
      rfl


/-- `attention_layer` succeeds on a rank-2 input with all three hints
supplied, producing a `[bs * fsl, N * H]` matrix. -/
theorem attention_layer_rank2_ok {α : Type} [LinearOrderedField α] (sqrtF expF : α → α)
    (keep : Nat → Bool) (qk : Nat → Nat → α) (qb : Nat → α) (kk : Nat → Nat → α)
    (kb : Nat → α) (vk : Nat → Nat → α) (vb : Nat → α) (x : Tensor α)
    (mask : Option (Tensor α)) (N H : Nat) (p : α) (r c bs fsl tsl : Nat)
    (hx : x.shape = [r, c]) :
    ∃ v, attention_layer sqrtF expF keep qk qb kk kb vk vb x x mask N H
        none none none p true (some bs) (some fsl) (some tsl) = .ok v
      ∧ v.shape = [bs * fsl, N * H] := by
  obtain ⟨sx, dx⟩ := x
  have hs : sx = [r, c] := hx
  subst hs
  exact ⟨_, rfl, rfl⟩


/-- Shape of a dense layer output. -/
theorem tf_layers_dense_shape {α : Type} [LinearOrderedField α] (x : Tensor α) (u : Nat)
    (a : Option (α → α)) (kk : Nat → Nat → α) (bb : Nat → α) :
    (tf_layers_dense x u a kk bb).shape = [x.shape.headD 0, u] :=
  rfl


/-- Layer normalization preserves the shape. -/
theorem layer_norm_shape {α : Type} [LinearOrderedField α] (sqrtF : α → α)
    (g b : Nat → α) (t : Tensor α) : (layer_norm sqrtF g b t).shape = t.shape :=
  rfl


/-- Elementwise add keeps the left shape. -/
theorem tensor_add_shape {α : Type} [LinearOrderedField α] (x y : Tensor α) :
    (tensor_add x y).shape = x.shape :=
  rfl


/-- A transformer layer succeeds on a rank-2 input and outputs a
`[batch * seq, hidden]` matrix. -/
theorem transformer_layer_ok {α : Type} [LinearOrderedField α] (sqrtF expF : α → α)
    (rand : Nat → Nat → Bool) (w : LayerWeights α) (layer_input : Tensor α)
    (mask : Option (Tensor α)) (bs sl hs hn hh ins : Nat) (act : Option (α → α))
    (hdp adp : α) (r c : Nat) (hx : layer_input.shape = [r, c]) :
    ∃ out, transformer_layer sqrtF expF rand w layer_input mask bs sl hs hn hh ins
        act hdp adp = .ok out
      ∧ out.shape = [bs * sl, hs] := by
  obtain ⟨head, hhead, hheadsh⟩ := attention_layer_rank2_ok sqrtF expF (fun i => rand 0 i)
    w.query_kernel w.query_bias w.key_kernel w.key_bias w.value_kernel w.value_bias
    layer_input mask hn hh adp r c bs sl sl hx
  refine ⟨?v, ?h1, ?h2⟩
  case h1 =>
    unfold transformer_layer
    rw [hhead]
    exact rfl
  case h2 =>
    simp only [layer_norm_shape, tensor_add_shape, dropout_shape, tf_layers_dense_shape,
      hheadsh, List.headD_cons]


/-- The layer loop succeeds from any rank-2 starting representation. -/
theorem transformer_fold_ok {α : Type} [LinearOrderedField α] (sqrtF expF : α → α)
    (rand : Nat → Nat → Bool) (weights : Nat → LayerWeights α) (mask : Option (Tensor α))
    (bs sl hs hn hh ins : Nat) (act : Option (α → α)) (hdp adp : α) :
    ∀ (l : List Nat) (log : List String) (prev : Tensor α) (outs : List (Tensor α))
      (r c : Nat), prev.shape = [r, c] →
      ∃ log2 prev2 outs2,
        l.foldl (transformer_step sqrtF expF rand weights mask bs sl hs hn hh ins
            act hdp adp) (log, .ok (prev, outs)) = (log2, .ok (prev2, outs2))
          ∧ (prev2.shape = [r, c] ∨ prev2.shape = [bs * sl, hs]) := by
  intro l
  induction l with
  | nil =>
    intro log prev outs r c hprev
    exact ⟨log, prev, outs, rfl, Or.inl hprev⟩
  | cons a l ih =>
    intro log prev outs r c hprev
    obtain ⟨out, hout, houts⟩ := transformer_layer_ok sqrtF expF
      (fun s i => rand (3 * a + s) i) (weights a) prev mask bs sl hs hn hh ins act hdp adp
      r c hprev
    have hstep : transformer_step sqrtF expF rand weights mask bs sl hs hn hh ins
        act hdp adp (log, .ok (prev, outs)) a
        = (log ++ layer_var_names a, .ok (out, outs ++ [out])) := by
      simp only [transformer_step]
      rw [hout]
    rw [List.foldl_cons, hstep]
    obtain ⟨log2, prev2, outs2, h⟩ := ih (log ++ layer_var_names a) out (outs ++ [out])
      (bs * sl) hs houts
    exact ⟨log2, prev2, outs2, h.1, Or.inr (h.2.elim id id)⟩


/-- C6: when `hidden_size` is not divisible by `num_attention_heads`,
`transformer_model` fails with the configuration error and the
allocation log is returned unchanged (no layer weight was allocated);
for a divisible configuration (with a well-formed input) the check
passes, the stack builds successfully, and the per-head width is fixed
to `hidden_size / num_attention_heads`. -/
theorem transformer_model_spec {α : Type} [LinearOrderedField α] (sqrtF expF : α → α)
    (rand : Nat → Nat → Bool) (weights : Nat → LayerWeights α) (input_tensor : Tensor α)
    (attention_mask : Option (Tensor α))
    (hidden_size num_hidden_layers num_attention_heads intermediate_size : Nat)
    (act : Option (α → α)) (hdp adp : α) (dral : Bool) (var_log : List String)
    (B S : Nat) (hin : input_tensor.shape = [B, S, hidden_size]) :
    (hidden_size % num_attention_heads ≠ 0 →
      transformer_model sqrtF expF rand weights input_tensor attention_mask hidden_size
          num_hidden_layers num_attention_heads intermediate_size act hdp adp dral var_log
        = (var_log, .error (.configError ("The hidden size (" ++ toString hidden_size
            ++ ") is not a multiple of the number of attention heads ("
            ++ toString num_attention_heads ++ ")"))))
  ∧ (hidden_size % num_attention_heads = 0 →
      (∃ log2 out, transformer_model sqrtF expF rand weights input_tensor attention_mask
          hidden_size num_hidden_layers num_attention_heads intermediate_size act hdp adp
          dral var_log = (log2, .ok out))
      ∧ attention_head_size hidden_size num_attention_heads * num_attention_heads
          = hidden_size) := by
  constructor
  · intro hndiv
    unfold transformer_model
    rw [if_pos hndiv]
  · intro hdiv
    constructor
    · obtain ⟨si, di⟩ := input_tensor
      have hsi : si = [B, S, hidden_size] := hin
      subst hsi
      unfold transformer_model
      rw [if_neg (fun hcon => hcon hdiv)]
      rw [gslc_mem ⟨[B, S, hidden_size], di⟩ [3] (by simp)]
      simp only [reshape_to_matrix]
      norm_num
      obtain ⟨log2, prev2, outs2, hfold, hsh2⟩ := transformer_fold_ok sqrtF expF rand
        weights attention_mask B S hidden_size num_attention_heads
        (attention_head_size hidden_size num_attention_heads) intermediate_size act hdp adp
        (List.range num_hidden_layers) var_log
        (tf_reshape ⟨[B, S, hidden_size], di⟩
          [B * (S * hidden_size) / hidden_size, hidden_size]) []
        (B * (S * hidden_size) / hidden_size) hidden_size rfl
      rw [hfold]
      cases dral
      · exact ⟨log2, _, rfl⟩
      · exact ⟨log2, _, rfl⟩
    · exact Nat.div_mul_cancel (Nat.dvd_of_mod_eq_zero hdiv)

/-- Witness for C6: hidden size 3 with 2 heads is rejected without
allocation; hidden size 1 with 1 head builds successfully. -/
theorem transformer_model_spec_witness :
    transformer_model (α := ℚ) id id (fun _ _ => true)
        (fun _ => ⟨fun _ _ => 0, fun _ => 0, fun _ _ => 0, fun _ => 0, fun _ _ => 0,
          fun _ => 0, fun _ _ => 0, fun _ => 0, fun _ => 0, fun _ => 0, fun _ _ => 0,
          fun _ => 0, fun _ _ => 0, fun _ => 0, fun _ => 0, fun _ => 0⟩)
        ⟨[1, 1, 3], fun _ => 0⟩ none 3 1 2 1 none 0 0 true []
      = ([], .error (.configError ("The hidden size (" ++ toString 3
          ++ ") is not a multiple of the number of attention heads ("
          ++ toString 2 ++ ")")))
  ∧ ((∃ log2 out, transformer_model (α := ℚ) id id (fun _ _ => true)
        (fun _ => ⟨fun _ _ => 0, fun _ => 0, fun _ _ => 0, fun _ => 0, fun _ _ => 0,
          fun _ => 0, fun _ _ => 0, fun _ => 0, fun _ => 0, fun _ => 0, fun _ _ => 0,
          fun _ => 0, fun _ _ => 0, fun _ => 0, fun _ => 0, fun _ => 0⟩)
        ⟨[1, 1, 1], fun _ => 0⟩ none 1 1 1 1 none 0 0 true [] = (log2, .ok out))
      ∧ attention_head_size 1 1 * 1 = 1) :=
  ⟨(transformer_model_spec id id (fun _ _ => true)
      (fun _ => ⟨fun _ _ => 0, fun _ => 0, fun _ _ => 0, fun _ => 0, fun _ _ => 0,
        fun _ => 0, fun _ _ => 0, fun _ => 0, fun _ => 0, fun _ => 0, fun _ _ => 0,
        fun _ => 0, fun _ _ => 0, fun _ => 0, fun _ => 0, fun _ => 0⟩)
      ⟨[1, 1, 3], fun _ => 0⟩ none 3 1 2 1 none 0 0 true [] 1 1 rfl).1 (by decide),
    (transformer_model_spec id id (fun _ _ => true)
      (fun _ => ⟨fun _ _ => 0, fun _ => 0, fun _ _ => 0, fun _ => 0, fun _ _ => 0,
        fun _ => 0, fun _ _ => 0, fun _ => 0, fun _ => 0, fun _ => 0, fun _ _ => 0,
        fun _ => 0, fun _ _ => 0, fun _ => 0, fun _ => 0, fun _ => 0⟩)
      ⟨[1, 1, 1], fun _ => 0⟩ none 1 1 1 1 none 0 0 true [] 1 1 rfl).2 (by decide)⟩

/-- `BertConfig`: the architecture hyperparameters. -/
structure BertConfig (α : Type) where
  vocab_size : Nat
  hidden_size : Nat
  num_hidden_layers : Nat
  num_attention_heads : Nat
  hidden_act : ActivationInput α
  intermediate_size : Nat
  hidden_dropout_prob : α
  attention_probs_dropout_prob : α
  max_position_embeddings : Nat
  type_vocab_size : Nat
  initializer_range : α

/-- `copy.deepcopy(config)`: a fresh object with every field copied. -/
def copy_deepcopy {α : Type} (config : BertConfig α) : BertConfig α :=
  ⟨config.vocab_size, config.hidden_size, config.num_hidden_layers,
    config.num_attention_heads, config.hidden_act, config.intermediate_size,
    config.hidden_dropout_prob, config.attention_probs_dropout_prob,
    config.max_position_embeddings, config.type_vocab_size, config.initializer_range⟩

/-- Lines 156-159 of `BertModel.__init__`: deep-copy the caller's
configuration, then zero both dropout rates on the copy when not
training.  Returns the working copy together with the caller's object
as it stands after construction (the mutation only ever hits the fresh
copy). -/
def bert_config_setup {α : Type} [LinearOrderedField α] (config : BertConfig α)
    (is_training : Bool) : BertConfig α × BertConfig α :=
  let working := copy_deepcopy config
  let working :=
    if is_training then working
    else { working with hidden_dropout_prob := 0, attention_probs_dropout_prob := 0 }
  (working, config)

/-- `tf.slice(t, [0, 0], [s, -1])` on a matrix: the first `s` rows (the
row-major data prefix is unchanged). -/
def tf_slice_prefix_rows {β : Type} (t : Tensor β) (s : Nat) : Tensor β :=
  ⟨[s, t.shape.getLastD 0], t.data⟩

/-- Elementwise `+` with broadcasting for the pattern
`[B, S, W] + [1, S, W]` used for position embeddings. -/
def tf_add_bcast_batch {α : Type} [LinearOrderedField α] (x y : Tensor α) : Tensor α :=
  match x.shape, y.shape with
  | [b, s, w], [_, s2, w2] => ⟨[b, s, w], fun i => x.data i + y.data (i % (s2 * w2))⟩
  | _, _ => x

/-- `layer_norm_and_dropout(input_tensor, dropout_prob)`. -/
def layer_norm_and_dropout {α : Type} [LinearOrderedField α] (sqrtF : α → α)
    (keep : Nat → Bool) (gamma beta : Nat → α) (input_tensor : Tensor α)
    (dropout_prob : α) : Tensor α :=
  dropout keep (layer_norm sqrtF gamma beta input_tensor) (some dropout_prob)

/-- `embedding_postprocessor(input_tensor, ...)`: add the one-hot
matmul segment-type embeddings and the sliced position embeddings
(checking the sequence length against the table size), then layer norm
and dropout. -/
def embedding_postprocessor {α : Type} [LinearOrderedField α] (sqrtF : α → α)
    (keep : Nat → Bool) (token_type_table_value full_position_value : Nat → Nat → α)
    (gamma beta : Nat → α) (input_tensor : Tensor α) (use_token_type : Bool)
    (token_type_ids : Option (Tensor Nat)) (token_type_vocab_size : Nat)
    (use_position_embeddings : Bool) (max_position_embeddings : Nat)
    (dropout_prob : α) : Except Err (Tensor α) := do
  let input_shape ← get_shape_list_checked input_tensor [3]
  let batch_size := input_shape.getD 0 0
  let seq_length := input_shape.getD 1 0
  let width := input_shape.getD 2 0
  let output := input_tensor
  let output ← (if use_token_type then
      match token_type_ids with
      | none => .error (.configError
          "token_type_ids must be specified if use_token_type is True.")
      | some tti =>
        let token_type_table :=
          tf_get_variable_matrix token_type_table_value token_type_vocab_size width
        let flat_token_type_ids := tf_reshape tti [tti.shape.prod]
        let one_hot_ids : Tensor α := tf_one_hot flat_token_type_ids token_type_vocab_size
        let token_type_embeddings := tf_matmul2 one_hot_ids token_type_table
        let token_type_embeddings :=
          tf_reshape token_type_embeddings [batch_size, seq_length, width]
        .ok (tensor_add output token_type_embeddings)
    else .ok output : Except Err (Tensor α))
  let output ← (if use_position_embeddings then
      if seq_length ≤ max_position_embeddings then
        let full_position_embeddings :=
          tf_get_variable_matrix full_position_value max_position_embeddings width
        let position_embeddings := tf_slice_prefix_rows full_position_embeddings seq_length
        let position_embeddings := tf_reshape position_embeddings [1, seq_length, width]
        .ok (tf_add_bcast_batch output position_embeddings)
      else .error (.configError
        "The sequence length is greater than max_position_embeddings.")
    else .ok output : Except Err (Tensor α))
  pure (layer_norm_and_dropout sqrtF keep gamma beta output dropout_prob)

/-- All externally learned parameters of the model. -/
structure BertWeights (α : Type) where
  word_embeddings : Nat → Nat → α
  token_type_embeddings : Nat → Nat → α
  position_embeddings : Nat → Nat → α
  embedding_ln_gamma : Nat → α
  embedding_ln_beta : Nat → α
  layer : Nat → LayerWeights α
  pooler_kernel : Nat → Nat → α
  pooler_bias : Nat → α

/-- The outputs exposed by `BertModel` through its accessors. -/
structure BertOutputs (α : Type) where
  embedding_output : Tensor α
  embedding_table : Tensor α
  all_encoder_layers : List (Tensor α)
  sequence_output : Tensor α
  pooled_output : Tensor α

/-- `tf.zeros(shape, dtype=tf.int32)` as a token-type grid. -/
def tf_zeros_nat (shape : List Nat) : Tensor Nat :=
  ⟨shape, fun _ => 0⟩

/-- `tf.ones(shape, dtype=tf.int32)` as a validity mask. -/
def tf_ones_int (shape : List Nat) : Tensor Int :=
  ⟨shape, fun _ => 1⟩

/-- `tf.squeeze(sequence_output[:, 0:1, :], axis=1)`: the first-token
vector of every batch element. -/
def tf_squeeze_first_token {α : Type} (sequence_output : Tensor α) : Tensor α :=
  match sequence_output.shape with
  | [b, s, h] => ⟨[b, h], fun i => sequence_output.data (i / h * (s * h) + i % h)⟩
  | _ => sequence_output

/-- `BertModel.__init__`: deep-copy and adjust the configuration, apply
defaults for the optional mask and segment ids, then word embedding →
postprocessing → attention mask → transformer stack → pooler.
`sqrt_two_over_pi` is the float constant used by `gelu`, and
`rand s` supplies the dropout randomness of site `s`. -/
def bert_model {α : Type} [LinearOrderedField α] (sqrtF expF tanhF : α → α)
    (sqrt_two_over_pi : α) (rand : Nat → Nat → Bool) (weights : BertWeights α)
    (config0 : BertConfig α) (is_training : Bool) (input_ids : Tensor Nat)
    (input_mask : Option (Tensor Int)) (token_type_ids : Option (Tensor Nat))
    (use_one_hot_embeddings : Bool) : Except Err (BertOutputs α) := do
  let config := (bert_config_setup config0 is_training).1
  let input_shape ← get_shape_list_checked input_ids [2]
  let batch_size := input_shape.getD 0 0
  let seq_length := input_shape.getD 1 0
  let input_mask := match input_mask with
    | none => tf_ones_int [batch_size, seq_length]
    | some m => m
  let token_type_ids := match token_type_ids with
    | none => tf_zeros_nat [batch_size, seq_length]
    | some t => t
  let lookup := embedding_lookup weights.word_embeddings input_ids config.vocab_size
    config.hidden_size use_one_hot_embeddings
  let embedding_table := lookup.2
  let embedding_output ← embedding_postprocessor sqrtF (fun i => rand 0 i)
    weights.token_type_embeddings weights.position_embeddings
    weights.embedding_ln_gamma weights.embedding_ln_beta lookup.1
    true (some token_type_ids) config.type_vocab_size true
    config.max_position_embeddings config.hidden_dropout_prob
  let attention_mask ← create_attention_mask_from_input_mask input_ids input_mask
  let intermediate_act_fn ← get_activation tanhF sqrt_two_over_pi config.hidden_act
  let all_encoder_layers ← (match (transformer_model sqrtF expF
      (fun s i => rand (s + 1) i) weights.layer embedding_output (some attention_mask)
      config.hidden_size config.num_hidden_layers config.num_attention_heads
      config.intermediate_size intermediate_act_fn config.hidden_dropout_prob
      config.attention_probs_dropout_prob true []).2 with
    | .error e => .error e
    | .ok (.many ls) => .ok ls
    | .ok (.one t) => .ok [t] : Except Err (List (Tensor α)))
  let sequence_output := all_encoder_layers.getLastD ⟨[], fun _ => 0⟩
  let first_token_tensor := tf_squeeze_first_token sequence_output
  let pooled_output := tf_layers_dense first_token_tensor config.hidden_size (some tanhF)
    weights.pooler_kernel weights.pooler_bias
  pure ⟨embedding_output, embedding_table, all_encoder_layers, sequence_output,
    pooled_output⟩

/-- With attention dropout probability `0`, `attention_layer` does not
depend on the dropout randomness. -/
theorem attention_layer_keep_canon {α : Type} [LinearOrderedField α] (sqrtF expF : α → α)
    (keep : Nat → Bool) (qk : Nat → Nat → α) (qb : Nat → α) (kk : Nat → Nat → α)
    (kb : Nat → α) (vk : Nat → Nat → α) (vb : Nat → α) (ft tt : Tensor α)
    (mask : Option (Tensor α)) (N H : Nat) (qa ka va : Option (α → α)) (r2 : Bool)
    (bs fsl tsl : Option Nat) :
    attention_layer sqrtF expF keep qk qb kk kb vk vb ft tt mask N H qa ka va 0 r2
        bs fsl tsl
      = attention_layer sqrtF expF (fun _ => true) qk qb kk kb vk vb ft tt mask N H
        qa ka va 0 r2 bs fsl tsl := by
  unfold attention_layer
  simp only [dropout_zero]


/-- With both dropout probabilities `0`, a transformer layer does not
depend on the dropout randomness. -/
theorem transformer_layer_keep_canon {α : Type} [LinearOrderedField α] (sqrtF expF : α → α)
    (rand : Nat → Nat → Bool) (w : LayerWeights α) (layer_input : Tensor α)
    (mask : Option (Tensor α)) (bs sl hs hn hh ins : Nat) (act : Option (α → α)) :
    transformer_layer sqrtF expF rand w layer_input mask bs sl hs hn hh ins act 0 0
      = transformer_layer sqrtF expF (fun _ _ => true) w layer_input mask bs sl hs hn hh
        ins act 0 0 := by
  unfold transformer_layer
  simp only [dropout_zero, attention_layer_keep_canon]


/-- The layer-loop step with zero dropout is randomness-independent. -/
theorem transformer_step_keep_canon {α : Type} [LinearOrderedField α] (sqrtF expF : α → α)
    (rand : Nat → Nat → Bool) (weights : Nat → LayerWeights α) (mask : Option (Tensor α))
    (bs sl hs hn hh ins : Nat) (act : Option (α → α)) :
    transformer_step sqrtF expF rand weights mask bs sl hs hn hh ins act 0 0
      = transformer_step sqrtF expF (fun _ _ => true) weights mask bs sl hs hn hh ins
        act 0 0 := by
  funext acc layer_idx
  obtain ⟨log, exc⟩ := acc
  cases exc with
  | error e => rfl
  | ok val =>
    obtain ⟨prev, outs⟩ := val
    simp only [transformer_step]
    rw [transformer_layer_keep_canon, transformer_layer_keep_canon]


/-- The whole stack with zero dropout is randomness-independent. -/
theorem transformer_model_keep_canon {α : Type} [LinearOrderedField α] (sqrtF expF : α → α)
    (rand : Nat → Nat → Bool) (weights : Nat → LayerWeights α) (input_tensor : Tensor α)
    (mask : Option (Tensor α)) (hs nl hn ins : Nat) (act : Option (α → α)) (dral : Bool)
    (var_log : List String) :
    transformer_model sqrtF expF rand weights input_tensor mask hs nl hn ins act 0 0
        dral var_log
      = transformer_model sqrtF expF (fun _ _ => true) weights input_tensor mask hs nl hn
        ins act 0 0 dral var_log := by
  unfold transformer_model
  simp only [transformer_step_keep_canon]


/-- The embedding postprocessor with zero dropout is
randomness-independent. -/
theorem embedding_postprocessor_keep_canon {α : Type} [LinearOrderedField α]
    (sqrtF : α → α) (keep : Nat → Bool) (ttv fpv : Nat → Nat → α) (gamma beta : Nat → α)
    (input_tensor : Tensor α) (utt : Bool) (tti : Option (Tensor Nat)) (tvs : Nat)
    (upe : Bool) (mpe : Nat) :
    embedding_postprocessor sqrtF keep ttv fpv gamma beta input_tensor utt tti tvs upe
        mpe 0
      = embedding_postprocessor sqrtF (fun _ => true) ttv fpv gamma beta input_tensor utt
        tti tvs upe mpe 0 := by
  unfold embedding_postprocessor
  simp only [layer_norm_and_dropout, dropout_zero]


/-- C9: constructing the model with `is_training = false` zeroes both
dropout rates on the working configuration before any computation, so
the whole forward pass is independent of the dropout randomness (no
dropout fires); with `is_training = true` the configuration is used
exactly as supplied. -/
theorem bert_model_inference_spec {α : Type} [LinearOrderedField α]
    (sqrtF expF tanhF : α → α) (sqrt_two_over_pi : α) (rand rand2 : Nat → Nat → Bool)
    (weights : BertWeights α) (config : BertConfig α) (input_ids : Tensor Nat)
    (input_mask : Option (Tensor Int)) (token_type_ids : Option (Tensor Nat))
    (use_one_hot_embeddings : Bool) :
    (bert_config_setup config false).1.hidden_dropout_prob = 0
  ∧ (bert_config_setup config false).1.attention_probs_dropout_prob = 0
  ∧ (bert_config_setup config true).1 = config
  ∧ bert_model sqrtF expF tanhF sqrt_two_over_pi rand weights config false input_ids
      input_mask token_type_ids use_one_hot_embeddings
    = bert_model sqrtF expF tanhF sqrt_two_over_pi rand2 weights config false input_ids
      input_mask token_type_ids use_one_hot_embeddings := by
  refine ⟨rfl, rfl, ?_, ?_⟩
  · obtain ⟨v, h, nl, nh, ha, is, hdp, adp, mpe, tvs, ir⟩ := config
    rfl
  · unfold bert_model
    simp only [bert_config_setup, copy_deepcopy, Bool.false_eq_true, if_false]
    simp only [embedding_postprocessor_keep_canon, transformer_model_keep_canon]

/-- C10: constructing a `BertModel` never mutates the caller's
configuration object: the constructor works on a deep copy (equal to the
original as a value), so even in inference mode, where the working
copy's dropout rates are zeroed, every field of the configuration
passed in is unchanged after construction. -/
theorem bert_config_frame {α : Type} [LinearOrderedField α] (config : BertConfig α)
    (is_training : Bool) :
    (bert_config_setup config is_training).2 = config
  ∧ copy_deepcopy config = config
  ∧ (bert_config_setup config false).1.hidden_dropout_prob = 0
  ∧ (bert_config_setup config false).1.attention_probs_dropout_prob = 0
  ∧ (bert_config_setup config false).2.hidden_dropout_prob = config.hidden_dropout_prob
  ∧ (bert_config_setup config false).2.attention_probs_dropout_prob
      = config.attention_probs_dropout_prob := by
  refine ⟨rfl, ?_, rfl, rfl, rfl, rfl⟩
  obtain ⟨v, h, nl, nh, ha, is, hdp, adp, mpe, tvs, ir⟩ := config
  rfl
